import Mathlib

/-!
Verification of the secure bootstrap sequence of `cmd/tesla-http-proxy/main.go`
(the `tesla-http-proxy` command of the vehicle-command repository).

The embedding models:
  * the mutable `HTTProxyConfig` record and its flag defaults (`init`),
  * `readFromEnvironment`, which merges environment variables into the record
    without overwriting non-default values,
  * the bootstrap portion of `main` from the `cli.NewConfig` call to the
    `http.ListenAndServeTLS` / `http.ListenAndServe` call, including the
    credential safety gate and the deferred error handler.

External collaborators (`cli.NewConfig`, `config.PrivateKey`,
`protocol.LoadPublicKey`, `proxy.New`) are modelled as oracle inputs in an
`Externals` record: each is an `Except` value (or function) standing for the
result the real call would return in a given run.  The Go standard-library
parsers `strconv.Atoi` and `time.ParseDuration` are not repository code and
are taken as parameters `atoi, parseDuration : String → Option Int`
(`none` = parse error); all theorems hold for every choice of parser.

Observable behaviour is collected in an `Outcome` record: the messages
printed to standard error (in order), the process exit code, whether the
deferred error handler ran and which error value it observed, whether the
credential safety gate executed, whether the proxy handler was constructed,
and which listener call (TLS or plaintext, with its address) was reached.
Logging via the `internal/log` package is not modelled (out of scope).
-/

/-- Environment lookup capability: `os.LookupEnv`.  `none` means the
variable is unset; `some v` means it is set to `v` (possibly empty). -/
abbrev Env := String → Option String

/-- `os.Getenv`: empty string when the variable is unset. -/
def getenv (env : Env) (name : String) : String :=
  (env name).getD ""

/- Environment variable names, from `main.go` lines 25-33. -/

def EnvTLSCert : String := "TESLA_HTTP_PROXY_TLS_CERT"
def EnvTLSKey : String := "TESLA_HTTP_PROXY_TLS_KEY"
def EnvHost : String := "TESLA_HTTP_PROXY_HOST"
def EnvPort : String := "TESLA_HTTP_PROXY_PORT"
def EnvTimeout : String := "TESLA_HTTP_PROXY_TIMEOUT"
def EnvVerbose : String := "TESLA_VERBOSE"
def EnvDisableTLS : String := "TESLA_HTTP_PROXY_DISABLE_TLS"

/-- `defaultPort = 8080` (`main.go` line 21). -/
def defaultPort : Int := 8080

/-- Modelled from the spec: `proxy.DefaultTimeout`, from the repository
package `pkg/proxy` which is not under `src/`.  The spec identifies it only
as the timeout field's default sentinel value; its concrete value is
irrelevant to every claim, so it is fixed here as an arbitrary duration
(in nanoseconds, the unit of Go's `time.Duration`). -/
def proxyDefaultTimeout : Int := 10000000000

/-- The warning text printed when the proxy listens on a non-`localhost`
host (`main.go` lines 35-38, leading newline included). -/
def nonLocalhostWarning : String :=
  "\nDo not listen on a network interface without adding client authentication. Unauthorized clients may\nbe used to create excessive traffic from your IP address to Tesla\x27s servers, which Tesla may respond\nto by rate limiting or blocking your connections."

/- Remediation guidance printed on credential reuse (`main.go` lines 134-136;
three `Fprintln` calls, the middle one printing an empty line). -/

def reuseMsg1 : String :=
  "It is unsafe to use the same private key for TLS and command authentication."

def reuseMsg2 : String :=
  "Generate a new TLS key for this server."

/-- The configuration record `HTTProxyConfig` (`main.go` lines 40-47).
`timeout` is a Go `time.Duration`, i.e. a 64-bit count of nanoseconds,
modelled as `Int`; `port` is a Go `int`, modelled as `Int`. -/
structure HTTProxyConfig where
  keyFilename : String
  certFilename : String
  verbose : Bool
  host : String
  port : Int
  timeout : Int
  deriving DecidableEq, Repr

/-- The flag defaults registered in `init` (`main.go` lines 53-60):
empty cert and key paths, verbose off, host `localhost`, port 8080,
timeout `proxy.DefaultTimeout`. -/
def defaultConfig : HTTProxyConfig :=
  { keyFilename := ""
    certFilename := ""
    verbose := false
    host := "localhost"
    port := defaultPort
    timeout := proxyDefaultTimeout }

/- `readFromEnvironment` (`main.go` lines 165-207), decomposed into one step
per environment-variable block, composed in source order.  The Go function
mutates the global record and returns an `error`; here each step is a
functional update and a parse failure returns `Except.error` carrying the
`fmt.Errorf` message (the partially updated record is discarded on error,
which is unobservable in the source because `main` exits immediately). -/

/-- Lines 166-168: `if certFilename == "" { certFilename = os.Getenv(EnvTLSCert) }`. -/
def applyCert (env : Env) (cfg : HTTProxyConfig) : HTTProxyConfig :=
  if cfg.certFilename = "" then
    { cfg with certFilename := getenv env EnvTLSCert }
  else cfg

/-- Lines 170-172: `if keyFilename == "" { keyFilename = os.Getenv(EnvTLSKey) }`. -/
def applyKey (env : Env) (cfg : HTTProxyConfig) : HTTProxyConfig :=
  if cfg.keyFilename = "" then
    { cfg with keyFilename := getenv env EnvTLSKey }
  else cfg

/-- Lines 174-179: overwrite `host` from `EnvHost` only while it is still
`"localhost"`, and only when the variable is present. -/
def applyHost (env : Env) (cfg : HTTProxyConfig) : HTTProxyConfig :=
  if cfg.host = "localhost" then
    match env EnvHost with
    | some host => { cfg with host := host }
    | none => cfg
  else cfg

/-- Lines 181-185: while `verbose` is still false and `EnvVerbose` is
present, set it to `verbose != "false" && verbose != "0"`. -/
def applyVerbose (env : Env) (cfg : HTTProxyConfig) : HTTProxyConfig :=
  if cfg.verbose = false then
    match env EnvVerbose with
    | some verbose =>
        { cfg with verbose := (verbose != "false") && (verbose != "0") }
    | none => cfg
  else cfg

/-- Lines 188-195: while `port` is still `defaultPort` and `EnvPort` is
present, parse it with `strconv.Atoi`; on failure return
`fmt.Errorf("invalid port: %s", port)`. -/
def applyPort (atoi : String → Option Int) (env : Env) (cfg : HTTProxyConfig) :
    Except String HTTProxyConfig :=
  if cfg.port = defaultPort then
    match env EnvPort with
    | some port =>
        match atoi port with
        | some n => .ok { cfg with port := n }
        | none => .error ("invalid port: " ++ port)
    | none => .ok cfg
  else .ok cfg

/-- Lines 197-204: while `timeout` is still `proxy.DefaultTimeout` and
`EnvTimeout` is present, parse it with `time.ParseDuration`; on failure
return `fmt.Errorf("invalid timeout: %s", timeoutEnv)`. -/
def applyTimeout (parseDuration : String → Option Int) (env : Env)
    (cfg : HTTProxyConfig) : Except String HTTProxyConfig :=
  if cfg.timeout = proxyDefaultTimeout then
    match env EnvTimeout with
    | some timeoutEnv =>
        match parseDuration timeoutEnv with
        | some d => .ok { cfg with timeout := d }
        | none => .error ("invalid timeout: " ++ timeoutEnv)
    | none => .ok cfg
  else .ok cfg

/-- `readFromEnvironment` (`main.go` lines 165-207): the six blocks in
source order; the first failing parse aborts with its error. -/
def readFromEnvironment (atoi parseDuration : String → Option Int)
    (cfg : HTTProxyConfig) (env : Env) : Except String HTTProxyConfig :=
  let cfg := applyCert env cfg
  let cfg := applyKey env cfg
  let cfg := applyHost env cfg
  let cfg := applyVerbose env cfg
  match applyPort atoi env cfg with
  | .error e => .error e
  | .ok cfg => applyTimeout parseDuration env cfg

/-- Results of the external collaborator calls made by `main`, taken as
oracle inputs for one run.  `privateKey` stands for `config.PrivateKey()`;
on success it yields the command-authentication key's `PublicBytes()`.
`loadPublicKey` stands for `protocol.LoadPublicKey` applied to a file path;
on success it yields the loaded key's `Bytes()`. -/
structure Externals where
  newConfig : Except String Unit
  privateKey : Except String (List Nat)
  loadPublicKey : String → Except String (List Nat)
  proxyNew : Except String Unit

/-- The listener call reached at the end of `main` (lines 156-160). -/
inductive ListenerCall where
  | tls (addr certFile keyFile : String)
  | plain (addr : String)
  deriving DecidableEq, Repr

/-- Observable outcome of one run of `main`'s bootstrap.  `stderr` lists the
messages written to standard error in order (one entry per `Fprintf` or
`Fprintln`, the trailing newline omitted).  `deferredRan` is whether the
deferred error handler registered at line 93 executed (`os.Exit` skips it);
`deferredErr` is the value of `err` it observed.  `gateRan` is whether the
credential-safety-gate block (lines 131-144) executed, i.e. whether
`protocol.LoadPublicKey` was called.  `proxyCreated` is whether `proxy.New`
returned a handler; `listener` is the listener call reached, if any. -/
structure Outcome where
  stderr : List String
  exitCode : Nat
  deferredRan : Bool
  deferredErr : Option String
  gateRan : Bool
  proxyCreated : Bool
  listener : Option ListenerCall
  deriving DecidableEq, Repr

/-- Lines 124-128: TLS is enabled unless `EnvDisableTLS` is present, in
which case `useTLS = disableTLS != "true"`. -/
def useTLSOf (env : Env) : Bool :=
  match env EnvDisableTLS with
  | some disableTLS => disableTLS != "true"
  | none => true

/-- Lines 146-160 of `main`: proxy construction and listener selection,
reached whenever the credential safety gate does not abort.  `warn` is the
list of messages already printed to standard error.  A `proxy.New` failure
sets the (outer) `err` and returns, so the deferred handler prints
`"Error: ..."` and exits 1.  Otherwise the address is
`fmt.Sprintf("%s:%d", host, port)` and the listener is TLS exactly when
`useTLS && certFilename != "" && keyFilename != ""`; the listener blocks,
and when it returns `main` falls through with `err` still nil, so the run
exits 0. -/
def serveStage (ext : Externals) (cfg : HTTProxyConfig) (warn : List String)
    (useTLS : Bool) : Outcome :=
  match ext.proxyNew with
  | .error e =>
      { stderr := warn ++ ["Error: " ++ e]
        exitCode := 1
        deferredRan := true
        deferredErr := some e
        gateRan := useTLS
        proxyCreated := false
        listener := none }
  | .ok _ =>
      let addr := cfg.host ++ ":" ++ toString cfg.port
      { stderr := warn
        exitCode := 0
        deferredRan := true
        deferredErr := none
        gateRan := useTLS
        proxyCreated := true
        listener := some
          (if useTLS && (cfg.certFilename != "") && (cfg.keyFilename != "") then
            ListenerCall.tls addr cfg.certFilename cfg.keyFilename
          else
            ListenerCall.plain addr) }

/-- The bootstrap portion of `main` (`main.go` lines 86-160).  Flag parsing
is external: `cfg0` is the record as left by flag parsing (the defaults of
`init` when no flags are given).  Control flow, in source order:
`cli.NewConfig` failure exits 1 before the deferred handler is registered;
`readFromEnvironment` failure prints and calls `os.Exit(1)` directly
(skipping the deferred handler); the non-localhost warning is printed before
the key is loaded; `config.PrivateKey` failure sets `err` and returns, so
the deferred handler exits 1.  Inside the safety gate the source shadows
`err` (`if tlsPublicKey, err := protocol.LoadPublicKey(...)`), so the
credential-reuse `return` leaves the outer `err` nil and the deferred
handler observes no error. -/
def mainRun (atoi parseDuration : String → Option Int) (ext : Externals)
    (cfg0 : HTTProxyConfig) (env : Env) : Outcome :=
  match ext.newConfig with
  | .error e =>
      { stderr := ["Failed to load credential configuration: " ++ e]
        exitCode := 1
        deferredRan := false
        deferredErr := none
        gateRan := false
        proxyCreated := false
        listener := none }
  | .ok _ =>
    match readFromEnvironment atoi parseDuration cfg0 env with
    | .error e =>
        { stderr := ["Error reading environment: " ++ e]
          exitCode := 1
          deferredRan := false
          deferredErr := none
          gateRan := false
          proxyCreated := false
          listener := none }
    | .ok cfg =>
      let warn : List String :=
        if cfg.host = "localhost" then [] else [nonLocalhostWarning]
      match ext.privateKey with
      | .error e =>
          { stderr := warn ++ ["Error: " ++ e]
            exitCode := 1
            deferredRan := true
            deferredErr := some e
            gateRan := false
            proxyCreated := false
            listener := none }
      | .ok pub =>
        let useTLS := useTLSOf env
        if useTLS then
          match ext.loadPublicKey cfg.keyFilename with
          | .ok tlsPub =>
              if tlsPub = pub then
                { stderr := warn ++ [reuseMsg1, "", reuseMsg2]
                  exitCode := 0
                  deferredRan := true
                  deferredErr := none
                  gateRan := true
                  proxyCreated := false
                  listener := none }
              else
                serveStage ext cfg warn useTLS
          | .error _ => serveStage ext cfg warn useTLS
        else serveStage ext cfg warn useTLS

/-- The first four (infallible) blocks of `readFromEnvironment` in source
order: certificate path, key path, host, verbosity.  Proof-layer
abbreviation for the pipeline prefix. -/
def resolve4 (env : Env) (cfg : HTTProxyConfig) : HTTProxyConfig :=
  applyVerbose env (applyHost env (applyKey env (applyCert env cfg)))

/-- Spec-side definition, for comparison only (claim C8 is stated against
this, not against the source): a host string denotes the loopback
interface.  Follows the spec's words — "the loopback address" — read with
its glossary: the name `localhost` and the standard IPv4/IPv6 loopback
addresses. -/
def isLoopbackSpec (host : String) : Bool :=
  host = "localhost" || host = "127.0.0.1" || host = "::1"

/- Concrete fixtures used by witness and counterexample theorems. -/

/-- Sample command-authentication public-key bytes. -/
def pubA : List Nat := [4, 170, 187, 204]

/-- Externals for a healthy run whose TLS key file fails to load:
credential configuration and private key load succeed, `LoadPublicKey`
fails on every path, `proxy.New` succeeds. -/
def okExternals : Externals :=
  { newConfig := .ok ()
    privateKey := .ok pubA
    loadPublicKey := fun _ => .error "not a NIST P256 key"
    proxyNew := .ok () }

/-- Externals for a run in which the TLS key file loads to exactly the
command-authentication key's public bytes (credential reuse). -/
def reuseExternals : Externals :=
  { newConfig := .ok ()
    privateKey := .ok pubA
    loadPublicKey := fun _ => .ok pubA
    proxyNew := .ok () }

/-- A parser that rejects every string. -/
def noParse : String → Option Int := fun _ => none

/-- A parser that accepts exactly the string `"9090"`. -/
def parse9090 : String → Option Int :=
  fun s => if s = "9090" then some 9090 else none

/-- The empty environment: no variable set. -/
def envEmpty : Env := fun _ => none

/-- Environment with only the port variable set, to the non-numeric `"abc"`. -/
def envPortAbc : Env :=
  fun name => if name = EnvPort then some "abc" else none

/-- Environment with only the port variable set, to `"9090"`. -/
def envPort9090 : Env :=
  fun name => if name = EnvPort then some "9090" else none

/-- Environment with only the timeout variable set, to `"forever"`. -/
def envTimeoutBad : Env :=
  fun name => if name = EnvTimeout then some "forever" else none

/-- Environment with only the verbosity variable set, to the empty string. -/
def envVerboseEmpty : Env :=
  fun name => if name = EnvVerbose then some "" else none

/-- Flag-default configuration except that the host flag was set to the
IPv4 loopback address `127.0.0.1`. -/
def cfgLoopbackIP : HTTProxyConfig :=
  { defaultConfig with host := "127.0.0.1" }

/-!
Helper lemmas: each `readFromEnvironment` step touches only its own field,
and is characterised by the value of that field and of its variable.
-/

section StepLemmas

variable (env : Env) (cfg : HTTProxyConfig)
variable (atoi parseDuration : String → Option Int)

@[simp] theorem applyCert_keyFilename :
    (applyCert env cfg).keyFilename = cfg.keyFilename := by
  unfold applyCert; split <;> rfl

@[simp] theorem applyCert_host : (applyCert env cfg).host = cfg.host := by
  unfold applyCert; split <;> rfl

@[simp] theorem applyCert_verbose :
    (applyCert env cfg).verbose = cfg.verbose := by
  unfold applyCert; split <;> rfl

@[simp] theorem applyCert_port : (applyCert env cfg).port = cfg.port := by
  unfold applyCert; split <;> rfl

@[simp] theorem applyCert_timeout :
    (applyCert env cfg).timeout = cfg.timeout := by
  unfold applyCert; split <;> rfl

@[simp] theorem applyKey_certFilename :
    (applyKey env cfg).certFilename = cfg.certFilename := by
  unfold applyKey; split <;> rfl

@[simp] theorem applyKey_host : (applyKey env cfg).host = cfg.host := by
  unfold applyKey; split <;> rfl

@[simp] theorem applyKey_verbose : (applyKey env cfg).verbose = cfg.verbose := by
  unfold applyKey; split <;> rfl

@[simp] theorem applyKey_port : (applyKey env cfg).port = cfg.port := by
  unfold applyKey; split <;> rfl

@[simp] theorem applyKey_timeout :
    (applyKey env cfg).timeout = cfg.timeout := by
  unfold applyKey; split <;> rfl

@[simp] theorem applyHost_certFilename :
    (applyHost env cfg).certFilename = cfg.certFilename := by
  unfold applyHost
  split
  · split <;> rfl
  · rfl

@[simp] theorem applyHost_keyFilename :
    (applyHost env cfg).keyFilename = cfg.keyFilename := by
  unfold applyHost
  split
  · split <;> rfl
  · rfl

@[simp] theorem applyHost_verbose :
    (applyHost env cfg).verbose = cfg.verbose := by
  unfold applyHost
  split
  · split <;> rfl
  · rfl

@[simp] theorem applyHost_port : (applyHost env cfg).port = cfg.port := by
  unfold applyHost
  split
  · split <;> rfl
  · rfl

@[simp] theorem applyHost_timeout :
    (applyHost env cfg).timeout = cfg.timeout := by
  unfold applyHost
  split
  · split <;> rfl
  · rfl

@[simp] theorem applyVerbose_certFilename :
    (applyVerbose env cfg).certFilename = cfg.certFilename := by
  unfold applyVerbose
  split
  · split <;> rfl
  · rfl

@[simp] theorem applyVerbose_keyFilename :
    (applyVerbose env cfg).keyFilename = cfg.keyFilename := by
  unfold applyVerbose
  split
  · split <;> rfl
  · rfl

@[simp] theorem applyVerbose_host : (applyVerbose env cfg).host = cfg.host := by
  unfold applyVerbose
  split
  · split <;> rfl
  · rfl

@[simp] theorem applyVerbose_port : (applyVerbose env cfg).port = cfg.port := by
  unfold applyVerbose
  split
  · split <;> rfl
  · rfl

@[simp] theorem applyVerbose_timeout :
    (applyVerbose env cfg).timeout = cfg.timeout := by
  unfold applyVerbose
  split
  · split <;> rfl
  · rfl

theorem applyCert_of_empty (hc : cfg.certFilename = "") :
    applyCert env cfg = { cfg with certFilename := getenv env EnvTLSCert } := by
  simp [applyCert, hc]

theorem applyCert_of_set (hc : cfg.certFilename ≠ "") :
    applyCert env cfg = cfg := by
  simp [applyCert, hc]

theorem applyKey_of_empty (hc : cfg.keyFilename = "") :
    applyKey env cfg = { cfg with keyFilename := getenv env EnvTLSKey } := by
  simp [applyKey, hc]

theorem applyKey_of_set (hc : cfg.keyFilename ≠ "") :
    applyKey env cfg = cfg := by
  simp [applyKey, hc]

theorem applyHost_of_default_some {h : String}
    (hd : cfg.host = "localhost") (hv : env EnvHost = some h) :
    applyHost env cfg = { cfg with host := h } := by
  simp [applyHost, hd, hv]

theorem applyHost_of_default_none
    (hd : cfg.host = "localhost") (hv : env EnvHost = none) :
    applyHost env cfg = cfg := by
  simp [applyHost, hd, hv]

theorem applyHost_of_set (hd : cfg.host ≠ "localhost") :
    applyHost env cfg = cfg := by
  simp [applyHost, hd]

theorem applyVerbose_of_false_some {v : String}
    (hb : cfg.verbose = false) (hv : env EnvVerbose = some v) :
    applyVerbose env cfg =
      { cfg with verbose := (v != "false") && (v != "0") } := by
  simp [applyVerbose, hb, hv]

theorem applyVerbose_of_false_none
    (hb : cfg.verbose = false) (hv : env EnvVerbose = none) :
    applyVerbose env cfg = cfg := by
  simp [applyVerbose, hb, hv]

theorem applyVerbose_of_true (hb : cfg.verbose = true) :
    applyVerbose env cfg = cfg := by
  simp [applyVerbose, hb]

theorem applyPort_of_default_parsed {s : String} {n : Int}
    (hd : cfg.port = defaultPort) (hv : env EnvPort = some s)
    (hp : atoi s = some n) :
    applyPort atoi env cfg = .ok { cfg with port := n } := by
  simp [applyPort, hd, hv, hp]

theorem applyPort_of_default_bad {s : String}
    (hd : cfg.port = defaultPort) (hv : env EnvPort = some s)
    (hp : atoi s = none) :
    applyPort atoi env cfg = .error ("invalid port: " ++ s) := by
  simp [applyPort, hd, hv, hp]

theorem applyPort_of_default_none
    (hd : cfg.port = defaultPort) (hv : env EnvPort = none) :
    applyPort atoi env cfg = .ok cfg := by
  simp [applyPort, hd, hv]

theorem applyPort_of_set (hd : cfg.port ≠ defaultPort) :
    applyPort atoi env cfg = .ok cfg := by
  simp [applyPort, hd]

theorem applyTimeout_of_default_parsed {s : String} {d : Int}
    (hd : cfg.timeout = proxyDefaultTimeout) (hv : env EnvTimeout = some s)
    (hp : parseDuration s = some d) :
    applyTimeout parseDuration env cfg = .ok { cfg with timeout := d } := by
  simp [applyTimeout, hd, hv, hp]

theorem applyTimeout_of_default_bad {s : String}
    (hd : cfg.timeout = proxyDefaultTimeout) (hv : env EnvTimeout = some s)
    (hp : parseDuration s = none) :
    applyTimeout parseDuration env cfg = .error ("invalid timeout: " ++ s) := by
  simp [applyTimeout, hd, hv, hp]

theorem applyTimeout_of_default_none
    (hd : cfg.timeout = proxyDefaultTimeout) (hv : env EnvTimeout = none) :
    applyTimeout parseDuration env cfg = .ok cfg := by
  simp [applyTimeout, hd, hv]

theorem applyTimeout_of_set (hd : cfg.timeout ≠ proxyDefaultTimeout) :
    applyTimeout parseDuration env cfg = .ok cfg := by
  simp [applyTimeout, hd]

theorem readFromEnvironment_def :
    readFromEnvironment atoi parseDuration cfg env =
      match applyPort atoi env (resolve4 env cfg) with
      | .error e => .error e
      | .ok c => applyTimeout parseDuration env c := rfl

@[simp] theorem applyCert_certFilename :
    (applyCert env cfg).certFilename =
      if cfg.certFilename = "" then getenv env EnvTLSCert
      else cfg.certFilename := by
  unfold applyCert
  split <;> simp [*]

@[simp] theorem applyKey_keyFilename :
    (applyKey env cfg).keyFilename =
      if cfg.keyFilename = "" then getenv env EnvTLSKey
      else cfg.keyFilename := by
  unfold applyKey
  split <;> simp [*]

@[simp] theorem applyHost_host :
    (applyHost env cfg).host =
      if cfg.host = "localhost" then (env EnvHost).getD "localhost"
      else cfg.host := by
  unfold applyHost
  split
  · split <;> simp_all
  · simp [*]

@[simp] theorem applyVerbose_verbose :
    (applyVerbose env cfg).verbose =
      if cfg.verbose = false then
        (match env EnvVerbose with
          | some v => (v != "false") && (v != "0")
          | none => false)
      else cfg.verbose := by
  unfold applyVerbose
  split
  · split <;> simp_all
  · simp [*]

theorem applyPort_ok_fields {atoi : String → Option Int} {env : Env}
    {cfg cfg' : HTTProxyConfig} (h : applyPort atoi env cfg = .ok cfg') :
    cfg'.certFilename = cfg.certFilename ∧ cfg'.keyFilename = cfg.keyFilename ∧
      cfg'.host = cfg.host ∧ cfg'.verbose = cfg.verbose ∧
      cfg'.timeout = cfg.timeout := by
  unfold applyPort at h
  split at h
  · split at h
    · split at h
      · injection h with h
        subst h
        exact ⟨rfl, rfl, rfl, rfl, rfl⟩
      · simp at h
    · injection h with h
      subst h
      exact ⟨rfl, rfl, rfl, rfl, rfl⟩
  · injection h with h
    subst h
    exact ⟨rfl, rfl, rfl, rfl, rfl⟩

theorem applyTimeout_ok_fields {parseDuration : String → Option Int} {env : Env}
    {cfg cfg' : HTTProxyConfig}
    (h : applyTimeout parseDuration env cfg = .ok cfg') :
    cfg'.certFilename = cfg.certFilename ∧ cfg'.keyFilename = cfg.keyFilename ∧
      cfg'.host = cfg.host ∧ cfg'.verbose = cfg.verbose ∧
      cfg'.port = cfg.port := by
  unfold applyTimeout at h
  split at h
  · split at h
    · split at h
      · injection h with h
        subst h
        exact ⟨rfl, rfl, rfl, rfl, rfl⟩
      · simp at h
    · injection h with h
      subst h
      exact ⟨rfl, rfl, rfl, rfl, rfl⟩
  · injection h with h
    subst h
    exact ⟨rfl, rfl, rfl, rfl, rfl⟩

end StepLemmas

theorem rfe_ok_elim {atoi parseDuration : String → Option Int}
    {cfg cfg' : HTTProxyConfig} {env : Env}
    (h : readFromEnvironment atoi parseDuration cfg env = .ok cfg') :
    ∃ c, applyPort atoi env (resolve4 env cfg) = .ok c ∧
      applyTimeout parseDuration env c = .ok cfg' := by
  rw [readFromEnvironment_def] at h
  cases hp : applyPort atoi env (resolve4 env cfg) with
  | error e => rw [hp] at h; simp at h
  | ok c => rw [hp] at h; exact ⟨c, rfl, h⟩

theorem resolve4_port (env : Env) (cfg : HTTProxyConfig) :
    (resolve4 env cfg).port = cfg.port := by
  simp [resolve4]

theorem resolve4_timeout (env : Env) (cfg : HTTProxyConfig) :
    (resolve4 env cfg).timeout = cfg.timeout := by
  simp [resolve4]

theorem rfe_ok_cert {atoi parseDuration : String → Option Int}
    {cfg cfg' : HTTProxyConfig} {env : Env}
    (h : readFromEnvironment atoi parseDuration cfg env = .ok cfg') :
    cfg'.certFilename =
      if cfg.certFilename = "" then getenv env EnvTLSCert
      else cfg.certFilename := by
  obtain ⟨c, hp, ht⟩ := rfe_ok_elim h
  rw [(applyTimeout_ok_fields ht).1, (applyPort_ok_fields hp).1]
  simp [resolve4]

theorem rfe_ok_key {atoi parseDuration : String → Option Int}
    {cfg cfg' : HTTProxyConfig} {env : Env}
    (h : readFromEnvironment atoi parseDuration cfg env = .ok cfg') :
    cfg'.keyFilename =
      if cfg.keyFilename = "" then getenv env EnvTLSKey
      else cfg.keyFilename := by
  obtain ⟨c, hp, ht⟩ := rfe_ok_elim h
  rw [(applyTimeout_ok_fields ht).2.1, (applyPort_ok_fields hp).2.1]
  simp [resolve4]

theorem rfe_ok_host {atoi parseDuration : String → Option Int}
    {cfg cfg' : HTTProxyConfig} {env : Env}
    (h : readFromEnvironment atoi parseDuration cfg env = .ok cfg') :
    cfg'.host =
      if cfg.host = "localhost" then (env EnvHost).getD "localhost"
      else cfg.host := by
  obtain ⟨c, hp, ht⟩ := rfe_ok_elim h
  rw [(applyTimeout_ok_fields ht).2.2.1, (applyPort_ok_fields hp).2.2.1]
  simp [resolve4]

theorem rfe_ok_verbose {atoi parseDuration : String → Option Int}
    {cfg cfg' : HTTProxyConfig} {env : Env}
    (h : readFromEnvironment atoi parseDuration cfg env = .ok cfg') :
    cfg'.verbose =
      if cfg.verbose = false then
        (match env EnvVerbose with
          | some v => (v != "false") && (v != "0")
          | none => false)
      else cfg.verbose := by
  obtain ⟨c, hp, ht⟩ := rfe_ok_elim h
  rw [(applyTimeout_ok_fields ht).2.2.2.1, (applyPort_ok_fields hp).2.2.2.1]
  simp [resolve4]

theorem rfe_ok_port_set {atoi parseDuration : String → Option Int}
    {cfg cfg' : HTTProxyConfig} {env : Env}
    (h : readFromEnvironment atoi parseDuration cfg env = .ok cfg')
    (hd : cfg.port ≠ defaultPort) : cfg'.port = cfg.port := by
  obtain ⟨c, hp, ht⟩ := rfe_ok_elim h
  rw [applyPort_of_set _ _ _ (by rw [resolve4_port]; exact hd)] at hp
  injection hp with hp
  rw [(applyTimeout_ok_fields ht).2.2.2.2, ← hp, resolve4_port]

theorem rfe_ok_port_none {atoi parseDuration : String → Option Int}
    {cfg cfg' : HTTProxyConfig} {env : Env}
    (h : readFromEnvironment atoi parseDuration cfg env = .ok cfg')
    (hd : cfg.port = defaultPort) (hv : env EnvPort = none) :
    cfg'.port = cfg.port := by
  obtain ⟨c, hp, ht⟩ := rfe_ok_elim h
  rw [applyPort_of_default_none _ _ _ (by rw [resolve4_port]; exact hd) hv] at hp
  injection hp with hp
  rw [(applyTimeout_ok_fields ht).2.2.2.2, ← hp, resolve4_port]

theorem rfe_ok_port_env {atoi parseDuration : String → Option Int}
    {cfg cfg' : HTTProxyConfig} {env : Env} {s : String}
    (h : readFromEnvironment atoi parseDuration cfg env = .ok cfg')
    (hd : cfg.port = defaultPort) (hv : env EnvPort = some s) :
    ∃ n, atoi s = some n ∧ cfg'.port = n := by
  obtain ⟨c, hp, ht⟩ := rfe_ok_elim h
  cases hn : atoi s with
  | none =>
      rw [applyPort_of_default_bad _ _ _ (by rw [resolve4_port]; exact hd) hv hn]
        at hp
      simp at hp
  | some n =>
      rw [applyPort_of_default_parsed _ _ _ (by rw [resolve4_port]; exact hd)
        hv hn] at hp
      injection hp with hp
      exact ⟨n, rfl, by rw [(applyTimeout_ok_fields ht).2.2.2.2, ← hp]⟩

theorem rfe_ok_timeout_set {atoi parseDuration : String → Option Int}
    {cfg cfg' : HTTProxyConfig} {env : Env}
    (h : readFromEnvironment atoi parseDuration cfg env = .ok cfg')
    (hd : cfg.timeout ≠ proxyDefaultTimeout) : cfg'.timeout = cfg.timeout := by
  obtain ⟨c, hp, ht⟩ := rfe_ok_elim h
  have hct : c.timeout = cfg.timeout := by
    rw [(applyPort_ok_fields hp).2.2.2.2, resolve4_timeout]
  rw [applyTimeout_of_set _ _ _ (by rw [hct]; exact hd)] at ht
  injection ht with ht
  rw [← ht, hct]

theorem rfe_ok_timeout_none {atoi parseDuration : String → Option Int}
    {cfg cfg' : HTTProxyConfig} {env : Env}
    (h : readFromEnvironment atoi parseDuration cfg env = .ok cfg')
    (hd : cfg.timeout = proxyDefaultTimeout) (hv : env EnvTimeout = none) :
    cfg'.timeout = cfg.timeout := by
  obtain ⟨c, hp, ht⟩ := rfe_ok_elim h
  have hct : c.timeout = cfg.timeout := by
    rw [(applyPort_ok_fields hp).2.2.2.2, resolve4_timeout]
  rw [applyTimeout_of_default_none _ _ _ (by rw [hct]; exact hd) hv] at ht
  injection ht with ht
  rw [← ht, hct]

theorem rfe_ok_timeout_env {atoi parseDuration : String → Option Int}
    {cfg cfg' : HTTProxyConfig} {env : Env} {s : String}
    (h : readFromEnvironment atoi parseDuration cfg env = .ok cfg')
    (hd : cfg.timeout = proxyDefaultTimeout) (hv : env EnvTimeout = some s) :
    ∃ d, parseDuration s = some d ∧ cfg'.timeout = d := by
  obtain ⟨c, hp, ht⟩ := rfe_ok_elim h
  have hct : c.timeout = cfg.timeout := by
    rw [(applyPort_ok_fields hp).2.2.2.2, resolve4_timeout]
  cases hn : parseDuration s with
  | none =>
      rw [applyTimeout_of_default_bad _ _ _ (by rw [hct]; exact hd) hv hn] at ht
      simp at ht
  | some d =>
      rw [applyTimeout_of_default_parsed _ _ _ (by rw [hct]; exact hd) hv hn]
        at ht
      injection ht with ht
      exact ⟨d, rfl, by rw [← ht]⟩

/-!
Helper lemmas about `mainRun`: one equation per control-flow path, plus
record-eta and string facts used below.
-/

theorem setCert_self (cfg : HTTProxyConfig) :
    ({ cfg with certFilename := cfg.certFilename } : HTTProxyConfig) = cfg := rfl

theorem setKey_self (cfg : HTTProxyConfig) :
    ({ cfg with keyFilename := cfg.keyFilename } : HTTProxyConfig) = cfg := rfl

theorem setPort_self (cfg : HTTProxyConfig) :
    ({ cfg with port := cfg.port } : HTTProxyConfig) = cfg := rfl

theorem setTimeout_self (cfg : HTTProxyConfig) :
    ({ cfg with timeout := cfg.timeout } : HTTProxyConfig) = cfg := rfl

theorem err_ne_warn (e : String) : ("Error: " ++ e) ≠ nonLocalhostWarning := by
  intro h
  have h2 : ("Error: " ++ e).data.head? = nonLocalhostWarning.data.head? := by
    rw [h]
  rw [String.data_append] at h2
  have hL : ("Error: ".data ++ e.data).head? = some (Char.ofNat 69) := rfl
  have hR : nonLocalhostWarning.data.head? = some (Char.ofNat 10) := rfl
  rw [hL, hR] at h2
  simp at h2

theorem mainRun_env_error {atoi parseDuration : String → Option Int}
    {ext : Externals} {cfg0 : HTTProxyConfig} {env : Env} {e : String}
    (hnc : ext.newConfig = .ok ())
    (hrfe : readFromEnvironment atoi parseDuration cfg0 env = .error e) :
    mainRun atoi parseDuration ext cfg0 env =
      { stderr := ["Error reading environment: " ++ e]
        exitCode := 1
        deferredRan := false
        deferredErr := none
        gateRan := false
        proxyCreated := false
        listener := none } := by
  simp only [mainRun, hnc, hrfe]

theorem mainRun_pk_error {atoi parseDuration : String → Option Int}
    {ext : Externals} {cfg0 cfg : HTTProxyConfig} {env : Env} {e : String}
    (hnc : ext.newConfig = .ok ())
    (hrfe : readFromEnvironment atoi parseDuration cfg0 env = .ok cfg)
    (hpk : ext.privateKey = .error e) :
    mainRun atoi parseDuration ext cfg0 env =
      { stderr := (if cfg.host = "localhost" then [] else [nonLocalhostWarning])
          ++ ["Error: " ++ e]
        exitCode := 1
        deferredRan := true
        deferredErr := some e
        gateRan := false
        proxyCreated := false
        listener := none } := by
  simp only [mainRun, hnc, hrfe, hpk]

theorem mainRun_reuse_eq {atoi parseDuration : String → Option Int}
    {ext : Externals} {cfg0 cfg : HTTProxyConfig} {env : Env} {pub : List Nat}
    (hnc : ext.newConfig = .ok ())
    (hrfe : readFromEnvironment atoi parseDuration cfg0 env = .ok cfg)
    (hpk : ext.privateKey = .ok pub)
    (htls : useTLSOf env = true)
    (hload : ext.loadPublicKey cfg.keyFilename = .ok pub) :
    mainRun atoi parseDuration ext cfg0 env =
      { stderr := (if cfg.host = "localhost" then [] else [nonLocalhostWarning])
          ++ [reuseMsg1, "", reuseMsg2]
        exitCode := 0
        deferredRan := true
        deferredErr := none
        gateRan := true
        proxyCreated := false
        listener := none } := by
  simp only [mainRun, hnc, hrfe, hpk, htls, hload, if_true, eq_self_iff_true]

theorem mainRun_noTLS {atoi parseDuration : String → Option Int}
    {ext : Externals} {cfg0 cfg : HTTProxyConfig} {env : Env} {pub : List Nat}
    (hnc : ext.newConfig = .ok ())
    (hrfe : readFromEnvironment atoi parseDuration cfg0 env = .ok cfg)
    (hpk : ext.privateKey = .ok pub)
    (htls : useTLSOf env = false) :
    mainRun atoi parseDuration ext cfg0 env =
      serveStage ext cfg
        (if cfg.host = "localhost" then [] else [nonLocalhostWarning]) false := by
  simp only [mainRun, hnc, hrfe, hpk, htls, Bool.false_eq_true, if_false]

theorem mainRun_loadfail {atoi parseDuration : String → Option Int}
    {ext : Externals} {cfg0 cfg : HTTProxyConfig} {env : Env} {pub : List Nat}
    {e : String}
    (hnc : ext.newConfig = .ok ())
    (hrfe : readFromEnvironment atoi parseDuration cfg0 env = .ok cfg)
    (hpk : ext.privateKey = .ok pub)
    (htls : useTLSOf env = true)
    (hload : ext.loadPublicKey cfg.keyFilename = .error e) :
    mainRun atoi parseDuration ext cfg0 env =
      serveStage ext cfg
        (if cfg.host = "localhost" then [] else [nonLocalhostWarning]) true := by
  simp only [mainRun, hnc, hrfe, hpk, htls, hload, if_true]

theorem mainRun_gatepass {atoi parseDuration : String → Option Int}
    {ext : Externals} {cfg0 cfg : HTTProxyConfig} {env : Env}
    {pub tlsPub : List Nat}
    (hnc : ext.newConfig = .ok ())
    (hrfe : readFromEnvironment atoi parseDuration cfg0 env = .ok cfg)
    (hpk : ext.privateKey = .ok pub)
    (htls : useTLSOf env = true)
    (hload : ext.loadPublicKey cfg.keyFilename = .ok tlsPub)
    (hne : tlsPub ≠ pub) :
    mainRun atoi parseDuration ext cfg0 env =
      serveStage ext cfg
        (if cfg.host = "localhost" then [] else [nonLocalhostWarning]) true := by
  simp only [mainRun, hnc, hrfe, hpk, htls, hload, hne, if_true, if_false]

theorem serveStage_ok {ext : Externals} {cfg : HTTProxyConfig}
    {warn : List String} {b : Bool} (hp : ext.proxyNew = .ok ()) :
    serveStage ext cfg warn b =
      { stderr := warn
        exitCode := 0
        deferredRan := true
        deferredErr := none
        gateRan := b
        proxyCreated := true
        listener := some
          (if b && (cfg.certFilename != "") && (cfg.keyFilename != "") then
            ListenerCall.tls (cfg.host ++ ":" ++ toString cfg.port)
              cfg.certFilename cfg.keyFilename
          else
            ListenerCall.plain (cfg.host ++ ":" ++ toString cfg.port)) } := by
  simp only [serveStage, hp]

theorem serveStage_err {ext : Externals} {cfg : HTTProxyConfig}
    {warn : List String} {b : Bool} {e : String}
    (hp : ext.proxyNew = .error e) :
    serveStage ext cfg warn b =
      { stderr := warn ++ ["Error: " ++ e]
        exitCode := 1
        deferredRan := true
        deferredErr := some e
        gateRan := b
        proxyCreated := false
        listener := none } := by
  simp only [serveStage, hp]

theorem serve_warn_mem {ext : Externals} {cfg : HTTProxyConfig}
    {warn : List String} {b : Bool} :
    (nonLocalhostWarning ∈ (serveStage ext cfg warn b).stderr ↔
      nonLocalhostWarning ∈ warn) := by
  cases hp : ext.proxyNew with
  | error e =>
      rw [serveStage_err hp]
      simp [List.mem_append, (err_ne_warn e).symm]
  | ok u =>
      cases u
      rw [serveStage_ok hp]

theorem warn_list_mem (cfg : HTTProxyConfig) :
    (nonLocalhostWarning ∈
        (if cfg.host = "localhost" then ([] : List String)
          else [nonLocalhostWarning]) ↔
      cfg.host ≠ "localhost") := by
  by_cases h : cfg.host = "localhost" <;> simp [h]

/-!
Fixpoint lemmas: each resolver step leaves a record unchanged when the
record's field already agrees with what the step would write.
-/

theorem applyCert_fix (env : Env) (cfg : HTTProxyConfig)
    (h : cfg.certFilename = "" → getenv env EnvTLSCert = "") :
    applyCert env cfg = cfg := by
  by_cases hc : cfg.certFilename = ""
  · rw [applyCert_of_empty _ _ hc, h hc, ← hc]
  · exact applyCert_of_set _ _ hc

theorem applyKey_fix (env : Env) (cfg : HTTProxyConfig)
    (h : cfg.keyFilename = "" → getenv env EnvTLSKey = "") :
    applyKey env cfg = cfg := by
  by_cases hc : cfg.keyFilename = ""
  · rw [applyKey_of_empty _ _ hc, h hc, ← hc]
  · exact applyKey_of_set _ _ hc

theorem applyHost_fix (env : Env) (cfg : HTTProxyConfig)
    (h : cfg.host = "localhost" → (env EnvHost).getD cfg.host = cfg.host) :
    applyHost env cfg = cfg := by
  by_cases hd : cfg.host = "localhost"
  · cases hv : env EnvHost with
    | none => exact applyHost_of_default_none _ _ hd hv
    | some x =>
        have hx : x = cfg.host := by
          have hh := h hd
          rw [hv] at hh
          simpa using hh
        rw [applyHost_of_default_some _ _ hd hv, hx]
  · exact applyHost_of_set _ _ hd

theorem applyVerbose_fix (env : Env) (cfg : HTTProxyConfig)
    (h : cfg.verbose = false →
      (match env EnvVerbose with
        | some v => (v != "false") && (v != "0")
        | none => false) = cfg.verbose) :
    applyVerbose env cfg = cfg := by
  by_cases hb : cfg.verbose = false
  · cases hv : env EnvVerbose with
    | none => exact applyVerbose_of_false_none _ _ hb hv
    | some v =>
        have hx : ((v != "false") && (v != "0")) = cfg.verbose := by
          have hh := h hb
          rw [hv] at hh
          exact hh
        rw [applyVerbose_of_false_some _ _ hb hv, hx]
  · exact applyVerbose_of_true _ _ (by revert hb; cases cfg.verbose <;> simp)

theorem resolve4_fix {atoi parseDuration : String → Option Int}
    {cfg cfg' : HTTProxyConfig} {env : Env}
    (h : readFromEnvironment atoi parseDuration cfg env = .ok cfg') :
    resolve4 env cfg' = cfg' := by
  have hcert : applyCert env cfg' = cfg' := by
    refine applyCert_fix _ _ (fun hc => ?_)
    have hch := rfe_ok_cert h
    by_cases hcc : cfg.certFilename = ""
    · rw [if_pos hcc] at hch
      rw [← hch, hc]
    · rw [if_neg hcc] at hch
      exact absurd (hch ▸ hc) hcc
  have hkey : applyKey env cfg' = cfg' := by
    refine applyKey_fix _ _ (fun hc => ?_)
    have hch := rfe_ok_key h
    by_cases hcc : cfg.keyFilename = ""
    · rw [if_pos hcc] at hch
      rw [← hch, hc]
    · rw [if_neg hcc] at hch
      exact absurd (hch ▸ hc) hcc
  have hhost : applyHost env cfg' = cfg' := by
    refine applyHost_fix _ _ (fun hd => ?_)
    have hch := rfe_ok_host h
    by_cases hcc : cfg.host = "localhost"
    · rw [if_pos hcc] at hch
      cases hv : env EnvHost with
      | none => simp [hv]
      | some x =>
          rw [hv] at hch
          simp at hch
          simp [hv, hch]
    · rw [if_neg hcc] at hch
      exact absurd (hch ▸ hd) hcc
  have hverb : applyVerbose env cfg' = cfg' := by
    refine applyVerbose_fix _ _ (fun hb => ?_)
    have hch := rfe_ok_verbose h
    by_cases hcc : cfg.verbose = false
    · rw [if_pos hcc] at hch
      exact hch.symm
    · rw [if_neg hcc] at hch
      have hct : cfg.verbose = true := by
        revert hcc
        cases cfg.verbose <;> simp
      rw [hch, hct] at hb
      simp at hb
  rw [resolve4, hcert, hkey, hhost, hverb]

/-!
Claim theorems.
-/

/-- Claim C1: if encrypted transport is enabled and loading the TLS key file
as a public key succeeds and its public-identity byte sequence is
byte-for-byte equal to the command-authentication key's public bytes, then
`main` prints the remediation guidance to standard error and terminates
startup without ever creating a listener and without constructing the proxy
handler. -/
theorem credential_reuse_aborts_startup
    (atoi parseDuration : String → Option Int) (ext : Externals)
    (cfg0 cfg : HTTProxyConfig) (env : Env) (pub tlsPub : List Nat)
    (hnc : ext.newConfig = .ok ())
    (hrfe : readFromEnvironment atoi parseDuration cfg0 env = .ok cfg)
    (hpk : ext.privateKey = .ok pub)
    (htls : useTLSOf env = true)
    (hload : ext.loadPublicKey cfg.keyFilename = .ok tlsPub)
    (heq : tlsPub = pub) :
    (mainRun atoi parseDuration ext cfg0 env).stderr =
        (if cfg.host = "localhost" then [] else [nonLocalhostWarning])
          ++ [reuseMsg1, "", reuseMsg2] ∧
      (mainRun atoi parseDuration ext cfg0 env).listener = none ∧
      (mainRun atoi parseDuration ext cfg0 env).proxyCreated = false := by
  subst heq
  rw [mainRun_reuse_eq hnc hrfe hpk htls hload]
  exact ⟨rfl, rfl, rfl⟩

/-- Witness for C1: concrete run with default flags, empty environment, and
a TLS key file that loads to exactly the command-authentication public
bytes. -/
theorem credential_reuse_aborts_startup_witness :
    (mainRun noParse noParse reuseExternals defaultConfig envEmpty).stderr =
        [reuseMsg1, "", reuseMsg2] ∧
      (mainRun noParse noParse reuseExternals defaultConfig envEmpty).listener
        = none ∧
      (mainRun noParse noParse reuseExternals defaultConfig
          envEmpty).proxyCreated = false := by
  have h := credential_reuse_aborts_startup noParse noParse reuseExternals
    defaultConfig defaultConfig envEmpty pubA pubA rfl (by rfl) rfl rfl rfl rfl
  exact ⟨h.1.trans (by decide), h.2.1, h.2.2⟩

/-- Claim C2 counterexample: a concrete run takes the credential-reuse
branch (the remediation guidance is the entire standard-error output), yet
the deferred error check observes a nil error and the process exits with
status zero — because the safety gate's `if` statement shadows `err`, the
outer `err` seen by the deferred handler stays nil. -/
theorem credential_reuse_exit_zero_cex :
    (mainRun noParse noParse reuseExternals defaultConfig envEmpty).stderr =
        [reuseMsg1, "", reuseMsg2] ∧
      (mainRun noParse noParse reuseExternals defaultConfig
          envEmpty).deferredRan = true ∧
      (mainRun noParse noParse reuseExternals defaultConfig
          envEmpty).deferredErr = none ∧
      (mainRun noParse noParse reuseExternals defaultConfig envEmpty).exitCode
        = 0 := by
  decide

/-- Claim C2 (amended): whenever bootstrap terminates because credential
reuse was detected, the deferred error check in `main` runs but observes a
nil error, and the process exits with status zero (not non-zero): the
credential-reuse branch never assigns the outer `err`. -/
theorem credential_reuse_exits_zero
    (atoi parseDuration : String → Option Int) (ext : Externals)
    (cfg0 cfg : HTTProxyConfig) (env : Env) (pub tlsPub : List Nat)
    (hnc : ext.newConfig = .ok ())
    (hrfe : readFromEnvironment atoi parseDuration cfg0 env = .ok cfg)
    (hpk : ext.privateKey = .ok pub)
    (htls : useTLSOf env = true)
    (hload : ext.loadPublicKey cfg.keyFilename = .ok tlsPub)
    (heq : tlsPub = pub) :
    (mainRun atoi parseDuration ext cfg0 env).deferredRan = true ∧
      (mainRun atoi parseDuration ext cfg0 env).deferredErr = none ∧
      (mainRun atoi parseDuration ext cfg0 env).exitCode = 0 := by
  subst heq
  rw [mainRun_reuse_eq hnc hrfe hpk htls hload]
  exact ⟨rfl, rfl, rfl⟩

/-- Witness for the amended C2. -/
theorem credential_reuse_exits_zero_witness :
    (mainRun noParse noParse reuseExternals defaultConfig
        envEmpty).deferredRan = true ∧
      (mainRun noParse noParse reuseExternals defaultConfig
          envEmpty).deferredErr = none ∧
      (mainRun noParse noParse reuseExternals defaultConfig envEmpty).exitCode
        = 0 :=
  credential_reuse_exits_zero noParse noParse reuseExternals defaultConfig
    defaultConfig envEmpty pubA pubA rfl (by rfl) rfl rfl rfl rfl

/-- Claim C3: precedence law.  For every configuration field, if the field
is at its default sentinel when `readFromEnvironment` runs and the
corresponding environment variable is set, the resolved field reflects the
environment value (for port/timeout, the parsed value); if the field was
already set away from its default, the environment variable is ignored and
the field is unchanged.  Stated for runs in which `readFromEnvironment`
returns successfully. -/
theorem readFromEnvironment_precedence
    (atoi parseDuration : String → Option Int) (cfg cfg' : HTTProxyConfig)
    (env : Env)
    (h : readFromEnvironment atoi parseDuration cfg env = .ok cfg') :
    ((cfg.certFilename = "" → ∀ v, env EnvTLSCert = some v →
        cfg'.certFilename = v) ∧
      (cfg.certFilename ≠ "" → cfg'.certFilename = cfg.certFilename)) ∧
    ((cfg.keyFilename = "" → ∀ v, env EnvTLSKey = some v →
        cfg'.keyFilename = v) ∧
      (cfg.keyFilename ≠ "" → cfg'.keyFilename = cfg.keyFilename)) ∧
    ((cfg.host = "localhost" → ∀ v, env EnvHost = some v → cfg'.host = v) ∧
      (cfg.host ≠ "localhost" → cfg'.host = cfg.host)) ∧
    ((cfg.port = defaultPort → ∀ s, env EnvPort = some s →
        ∃ n, atoi s = some n ∧ cfg'.port = n) ∧
      (cfg.port ≠ defaultPort → cfg'.port = cfg.port)) ∧
    ((cfg.timeout = proxyDefaultTimeout → ∀ s, env EnvTimeout = some s →
        ∃ d, parseDuration s = some d ∧ cfg'.timeout = d) ∧
      (cfg.timeout ≠ proxyDefaultTimeout → cfg'.timeout = cfg.timeout)) ∧
    ((cfg.verbose = false → ∀ v, env EnvVerbose = some v →
        cfg'.verbose = ((v != "false") && (v != "0"))) ∧
      (cfg.verbose = true → cfg'.verbose = cfg.verbose)) := by
  refine ⟨⟨fun hc v hv => ?_, fun hc => ?_⟩, ⟨fun hc v hv => ?_, fun hc => ?_⟩,
    ⟨fun hd v hv => ?_, fun hd => ?_⟩, ⟨fun hd s hv => ?_, fun hd => ?_⟩,
    ⟨fun hd s hv => ?_, fun hd => ?_⟩, ⟨fun hb v hv => ?_, fun hb => ?_⟩⟩
  · rw [rfe_ok_cert h, if_pos hc]
    simp [getenv, hv]
  · rw [rfe_ok_cert h, if_neg hc]
  · rw [rfe_ok_key h, if_pos hc]
    simp [getenv, hv]
  · rw [rfe_ok_key h, if_neg hc]
  · rw [rfe_ok_host h, if_pos hd, hv]
    rfl
  · rw [rfe_ok_host h, if_neg hd]
  · exact rfe_ok_port_env h hd hv
  · exact rfe_ok_port_set h hd
  · exact rfe_ok_timeout_env h hd hv
  · exact rfe_ok_timeout_set h hd
  · rw [rfe_ok_verbose h, if_pos hb, hv]
  · rw [rfe_ok_verbose h, hb]
    simp

/-- Witness for C3 (end-to-end scenario B): port variable set to `"9090"`,
all flags at default, resolved port is 9090. -/
theorem readFromEnvironment_precedence_witness :
    readFromEnvironment parse9090 noParse defaultConfig envPort9090 =
        .ok { defaultConfig with port := 9090 } ∧
      ∃ n, parse9090 "9090" = some n ∧
        ({ defaultConfig with port := 9090 } : HTTProxyConfig).port = n :=
  ⟨by rfl,
    (readFromEnvironment_precedence parse9090 noParse defaultConfig
        { defaultConfig with port := 9090 } envPort9090 (by rfl)).2.2.2.1.1
      rfl "9090" (by rfl)⟩

/-- Claim C4: an unparseable port value (while the port field is at its
default) or an unparseable timeout value (while the timeout field is at its
default, and the port block itself does not fail first — otherwise the port
error is reported instead) makes `readFromEnvironment` return an error
consisting of the offending field's name and the raw value, and bootstrap
aborts with exit status 1 before the safety gate runs, before the proxy is
constructed, and before any listener step. -/
theorem invalid_env_value_aborts
    (atoi parseDuration : String → Option Int) (ext : Externals)
    (cfg : HTTProxyConfig) (env : Env) (s : String)
    (hnc : ext.newConfig = .ok ()) :
    (cfg.port = defaultPort → env EnvPort = some s → atoi s = none →
      readFromEnvironment atoi parseDuration cfg env =
          .error ("invalid port: " ++ s) ∧
        mainRun atoi parseDuration ext cfg env =
          { stderr := ["Error reading environment: " ++ ("invalid port: " ++ s)]
            exitCode := 1
            deferredRan := false
            deferredErr := none
            gateRan := false
            proxyCreated := false
            listener := none }) ∧
    (cfg.timeout = proxyDefaultTimeout → env EnvTimeout = some s →
      parseDuration s = none →
      (cfg.port ≠ defaultPort ∨ env EnvPort = none ∨
        (∃ t n, env EnvPort = some t ∧ atoi t = some n)) →
      readFromEnvironment atoi parseDuration cfg env =
          .error ("invalid timeout: " ++ s) ∧
        mainRun atoi parseDuration ext cfg env =
          { stderr :=
              ["Error reading environment: " ++ ("invalid timeout: " ++ s)]
            exitCode := 1
            deferredRan := false
            deferredErr := none
            gateRan := false
            proxyCreated := false
            listener := none }) := by
  constructor
  · intro hd hv hn
    have hrfe : readFromEnvironment atoi parseDuration cfg env =
        .error ("invalid port: " ++ s) := by
      rw [readFromEnvironment_def,
        applyPort_of_default_bad _ _ _ (by rw [resolve4_port]; exact hd) hv hn]
    exact ⟨hrfe, mainRun_env_error hnc hrfe⟩
  · intro hd hv hn hport
    have hpok : ∃ c, applyPort atoi env (resolve4 env cfg) = .ok c := by
      rcases hport with hne | hnone | ⟨t, n, ht, htn⟩
      · exact ⟨_, applyPort_of_set _ _ _ (by rw [resolve4_port]; exact hne)⟩
      · by_cases h4 : (resolve4 env cfg).port = defaultPort
        · exact ⟨_, applyPort_of_default_none _ _ _ h4 hnone⟩
        · exact ⟨_, applyPort_of_set _ _ _ h4⟩
      · by_cases h4 : (resolve4 env cfg).port = defaultPort
        · exact ⟨_, applyPort_of_default_parsed _ _ _ h4 ht htn⟩
        · exact ⟨_, applyPort_of_set _ _ _ h4⟩
    obtain ⟨c, hc⟩ := hpok
    have hct : c.timeout = cfg.timeout := by
      rw [(applyPort_ok_fields hc).2.2.2.2, resolve4_timeout]
    have hrfe : readFromEnvironment atoi parseDuration cfg env =
        .error ("invalid timeout: " ++ s) := by
      rw [readFromEnvironment_def, hc]
      exact applyTimeout_of_default_bad _ _ _ (by rw [hct]; exact hd) hv hn
    exact ⟨hrfe, mainRun_env_error hnc hrfe⟩

/-- Witness for C4 (end-to-end scenario C and its timeout analogue): port
set to `"abc"` aborts naming the port and the raw value; timeout set to
`"forever"` aborts naming the timeout and the raw value; no gate, proxy, or
listener step runs. -/
theorem invalid_env_value_aborts_witness :
    readFromEnvironment noParse noParse defaultConfig envPortAbc =
        .error ("invalid port: " ++ "abc") ∧
      (mainRun noParse noParse okExternals defaultConfig envPortAbc).exitCode
        = 1 ∧
      (mainRun noParse noParse okExternals defaultConfig envPortAbc).gateRan
        = false ∧
      (mainRun noParse noParse okExternals defaultConfig envPortAbc).listener
        = none ∧
      (mainRun noParse noParse okExternals defaultConfig
          envPortAbc).proxyCreated = false ∧
      readFromEnvironment noParse noParse defaultConfig envTimeoutBad =
        .error ("invalid timeout: " ++ "forever") ∧
      (mainRun noParse noParse okExternals defaultConfig
          envTimeoutBad).exitCode = 1 := by
  have h1 := (invalid_env_value_aborts noParse noParse okExternals
    defaultConfig envPortAbc "abc" rfl).1 rfl (by rfl) rfl
  have h2 := (invalid_env_value_aborts noParse noParse okExternals
    defaultConfig envTimeoutBad "forever" rfl).2 rfl (by rfl) rfl
    (Or.inr (Or.inl (by rfl)))
  refine ⟨h1.1, ?_, ?_, ?_, ?_, h2.1, ?_⟩
  · rw [h1.2]
  · rw [h1.2]
  · rw [h1.2]
  · rw [h1.2]
  · rw [h2.2]

/-- Claim C5: for runs that reach the serving stage, an encrypted (TLS)
listener on `host:port` is started if and only if TLS was not disabled via
the environment and both the resolved certificate path and the resolved key
path are non-empty; in every other case a plaintext listener is started on
the same `host:port`. -/
theorem transport_selector_decision
    (atoi parseDuration : String → Option Int) (ext : Externals)
    (cfg0 cfg : HTTProxyConfig) (env : Env) (pub : List Nat)
    (hnc : ext.newConfig = .ok ())
    (hrfe : readFromEnvironment atoi parseDuration cfg0 env = .ok cfg)
    (hpk : ext.privateKey = .ok pub)
    (hgate : useTLSOf env = false ∨
      (∃ e, ext.loadPublicKey cfg.keyFilename = .error e) ∨
      (∃ tlsPub, ext.loadPublicKey cfg.keyFilename = .ok tlsPub ∧
        tlsPub ≠ pub))
    (hproxy : ext.proxyNew = .ok ()) :
    ((mainRun atoi parseDuration ext cfg0 env).listener =
        some (ListenerCall.tls (cfg.host ++ ":" ++ toString cfg.port)
          cfg.certFilename cfg.keyFilename) ↔
      useTLSOf env = true ∧ cfg.certFilename ≠ "" ∧ cfg.keyFilename ≠ "") ∧
    (¬(useTLSOf env = true ∧ cfg.certFilename ≠ "" ∧ cfg.keyFilename ≠ "") →
      (mainRun atoi parseDuration ext cfg0 env).listener =
        some (ListenerCall.plain (cfg.host ++ ":" ++ toString cfg.port))) := by
  have hs : mainRun atoi parseDuration ext cfg0 env =
      serveStage ext cfg
        (if cfg.host = "localhost" then [] else [nonLocalhostWarning])
        (useTLSOf env) := by
    by_cases ht : useTLSOf env = true
    · rw [ht]
      rcases hgate with hfalse | ⟨e, hl⟩ | ⟨tlsPub, hl, hne⟩
      · rw [hfalse] at ht
        exact absurd ht (by simp)
      · exact mainRun_loadfail hnc hrfe hpk ht hl
      · exact mainRun_gatepass hnc hrfe hpk ht hl hne
    · have hf : useTLSOf env = false := by
        revert ht
        cases useTLSOf env <;> simp
      rw [hf]
      exact mainRun_noTLS hnc hrfe hpk hf
  rw [hs, serveStage_ok hproxy]
  cases hu : useTLSOf env <;> by_cases hc : cfg.certFilename = "" <;>
    by_cases hk : cfg.keyFilename = "" <;>
    simp [hu, hc, hk, bne_iff_ne]

/-- Witness for C5 (end-to-end scenario A): empty environment, default
flags — the selector chooses plaintext and binds `localhost:8080`. -/
theorem transport_selector_decision_witness :
    (mainRun noParse noParse okExternals defaultConfig envEmpty).listener =
      some (ListenerCall.plain "localhost:8080") := by
  have h := (transport_selector_decision noParse noParse okExternals
    defaultConfig defaultConfig envEmpty pubA rfl (by rfl) rfl
    (Or.inr (Or.inl ⟨"not a NIST P256 key", rfl⟩)) rfl).2 (by decide)
  exact h.trans (by decide)

/-- Claim C6: when loading the TLS key file as a public key fails and
encrypted transport was otherwise requested, the safety gate does not
abort: the run is identical to a run in which the collision check had
passed (loading succeeded with non-matching bytes), and bootstrap proceeds
to proxy creation and listener startup. -/
theorem tls_load_failure_gate_passes
    (atoi parseDuration : String → Option Int) (ext : Externals)
    (cfg0 cfg : HTTProxyConfig) (env : Env) (pub tlsPub : List Nat)
    (e : String)
    (hnc : ext.newConfig = .ok ())
    (hrfe : readFromEnvironment atoi parseDuration cfg0 env = .ok cfg)
    (hpk : ext.privateKey = .ok pub)
    (htls : useTLSOf env = true)
    (hload : ext.loadPublicKey cfg.keyFilename = .error e)
    (hne : tlsPub ≠ pub) :
    mainRun atoi parseDuration ext cfg0 env =
        mainRun atoi parseDuration
          { ext with loadPublicKey := fun _ => .ok tlsPub } cfg0 env ∧
      (ext.proxyNew = .ok () →
        (mainRun atoi parseDuration ext cfg0 env).proxyCreated = true ∧
          (mainRun atoi parseDuration ext cfg0 env).listener.isSome
            = true) := by
  have h1 := mainRun_loadfail hnc hrfe hpk htls hload
  have h2 : mainRun atoi parseDuration
      { ext with loadPublicKey := fun _ => .ok tlsPub } cfg0 env =
      serveStage { ext with loadPublicKey := fun _ => .ok tlsPub } cfg
        (if cfg.host = "localhost" then [] else [nonLocalhostWarning])
        true :=
    mainRun_gatepass hnc hrfe hpk htls rfl hne
  constructor
  · rw [h1, h2]
    rfl
  · intro hp
    rw [h1, serveStage_ok hp]
    exact ⟨rfl, rfl⟩

/-- Witness for C6: run whose TLS key file fails to load, compared with the
same run in which loading succeeds with different bytes. -/
theorem tls_load_failure_gate_passes_witness :
    mainRun noParse noParse okExternals defaultConfig envEmpty =
        mainRun noParse noParse
          { okExternals with loadPublicKey := fun _ => .ok [9] }
          defaultConfig envEmpty ∧
      (mainRun noParse noParse okExternals defaultConfig
          envEmpty).proxyCreated = true := by
  have h := tls_load_failure_gate_passes noParse noParse okExternals
    defaultConfig defaultConfig envEmpty pubA [9] "not a NIST P256 key" rfl
    (by rfl) rfl rfl rfl (by decide)
  exact ⟨h.1, (h.2 rfl).1⟩

/-- Claim C7: boolean resolution of the verbosity field.  When the field is
still false (its default) and the variable is present, `"false"` and `"0"`
resolve to false and every other value — including the empty string —
resolves to true; when the variable is absent the field is left
unchanged. -/
theorem verbose_env_resolution
    (atoi parseDuration : String → Option Int) (cfg cfg' : HTTProxyConfig)
    (env : Env)
    (h : readFromEnvironment atoi parseDuration cfg env = .ok cfg')
    (hb : cfg.verbose = false) :
    (env EnvVerbose = some "false" → cfg'.verbose = false) ∧
      (env EnvVerbose = some "0" → cfg'.verbose = false) ∧
      (∀ v, env EnvVerbose = some v → v ≠ "false" → v ≠ "0" →
        cfg'.verbose = true) ∧
      (env EnvVerbose = none → cfg'.verbose = cfg.verbose) := by
  have hc := rfe_ok_verbose h
  rw [if_pos hb] at hc
  refine ⟨fun hv => ?_, fun hv => ?_, fun v hv h1 h2 => ?_, fun hv => ?_⟩
  · rw [hc, hv]
    decide
  · rw [hc, hv]
    decide
  · rw [hc, hv]
    simp [h1, h2]
  · rw [hc, hv, hb]

/-- Witness for C7: the verbosity variable present but empty resolves the
field to true. -/
theorem verbose_env_resolution_witness :
    readFromEnvironment noParse noParse defaultConfig envVerboseEmpty =
        .ok { defaultConfig with verbose := true } ∧
      ({ defaultConfig with verbose := true } : HTTProxyConfig).verbose
        = true :=
  ⟨by rfl,
    (verbose_env_resolution noParse noParse defaultConfig
        { defaultConfig with verbose := true } envVerboseEmpty (by rfl)
        rfl).2.2.1 "" (by rfl) (by decide) (by decide)⟩

set_option maxRecDepth 8192 in
/-- Claim C8 counterexample: the resolved host `127.0.0.1` denotes the
loopback interface (per the spec-side reading of "the loopback address"),
yet the exposure warning is emitted — the source compares the host against
the literal string `"localhost"` only — refuting "for every resolved host
that is loopback, no warning is emitted". -/
theorem loopback_warning_cex :
    isLoopbackSpec "127.0.0.1" = true ∧
      (mainRun noParse noParse okExternals cfgLoopbackIP envEmpty).stderr =
        [nonLocalhostWarning] := by
  decide

/-- Claim C8 (amended): for runs in which configuration resolution
succeeds, the non-fatal exposure warning is emitted to standard error if
and only if the resolved host differs from the literal string
`"localhost"`; loopback hosts written any other way (such as `127.0.0.1`)
do trigger the warning. -/
theorem warning_iff_host_ne_localhost
    (atoi parseDuration : String → Option Int) (ext : Externals)
    (cfg0 cfg : HTTProxyConfig) (env : Env)
    (hnc : ext.newConfig = .ok ())
    (hrfe : readFromEnvironment atoi parseDuration cfg0 env = .ok cfg) :
    (nonLocalhostWarning ∈ (mainRun atoi parseDuration ext cfg0 env).stderr ↔
      cfg.host ≠ "localhost") := by
  have herr : ∀ e : String, (nonLocalhostWarning ∈
      ((if cfg.host = "localhost" then ([] : List String)
          else [nonLocalhostWarning]) ++ ["Error: " ++ e]) ↔
      cfg.host ≠ "localhost") := by
    intro e
    constructor
    · intro hm
      rcases List.mem_append.mp hm with hm | hm
      · exact (warn_list_mem cfg).mp hm
      · rw [List.mem_singleton] at hm
        exact absurd hm.symm (err_ne_warn e)
    · intro hm
      exact List.mem_append.mpr (Or.inl ((warn_list_mem cfg).mpr hm))
  cases hpk : ext.privateKey with
  | error e =>
      rw [mainRun_pk_error hnc hrfe hpk]
      exact herr e
  | ok pub =>
      cases hu : useTLSOf env with
      | false =>
          rw [mainRun_noTLS hnc hrfe hpk hu, serve_warn_mem]
          exact warn_list_mem cfg
      | true =>
          cases hl : ext.loadPublicKey cfg.keyFilename with
          | error e =>
              rw [mainRun_loadfail hnc hrfe hpk hu hl, serve_warn_mem]
              exact warn_list_mem cfg
          | ok tlsPub =>
              by_cases he : tlsPub = pub
              · subst he
                rw [mainRun_reuse_eq hnc hrfe hpk hu hl]
                constructor
                · intro hm
                  rcases List.mem_append.mp hm with hm | hm
                  · exact (warn_list_mem cfg).mp hm
                  · exact absurd hm (by decide)
                · intro hm
                  exact List.mem_append.mpr
                    (Or.inl ((warn_list_mem cfg).mpr hm))
              · rw [mainRun_gatepass hnc hrfe hpk hu hl he, serve_warn_mem]
                exact warn_list_mem cfg

/-- Witness for the amended C8: with the host flag set to `127.0.0.1`, the
warning is emitted. -/
theorem warning_iff_host_ne_localhost_witness :
    nonLocalhostWarning ∈
      (mainRun noParse noParse okExternals cfgLoopbackIP envEmpty).stderr :=
  (warning_iff_host_ne_localhost noParse noParse okExternals cfgLoopbackIP
    cfgLoopbackIP envEmpty rfl (by rfl)).mpr (by decide)

/-- Claim C9: encrypted transport is disabled by the transport-disable
environment variable if and only if that variable is set to exactly the
string `"true"`; any other value while the variable is set (including
`"1"`, `"TRUE"`, `"yes"`) and absence of the variable leave TLS enabled —
a convention different from the configuration record's boolean convention,
where every value other than `"false"` and `"0"` means true. -/
theorem disableTLS_exact_true (env : Env) :
    (useTLSOf env = false ↔ env EnvDisableTLS = some "true") ∧
      (∀ v, env EnvDisableTLS = some v → v ≠ "true" →
        useTLSOf env = true) ∧
      (env EnvDisableTLS = none → useTLSOf env = true) := by
  refine ⟨?_, fun v hv hne => ?_, fun hv => ?_⟩
  · cases hv : env EnvDisableTLS with
    | none => simp only [useTLSOf, hv]; simp
    | some v => simp only [useTLSOf, hv]; simp [bne_iff_ne]
  · simp only [useTLSOf, hv]
    simp [hne]
  · simp only [useTLSOf, hv]

/-- Witness for C9: `"true"` disables TLS; `"yes"`, `"TRUE"`, `"1"` do
not. -/
theorem disableTLS_exact_true_witness :
    useTLSOf (fun _ => some "true") = false ∧
      useTLSOf (fun _ => some "yes") = true ∧
      useTLSOf (fun _ => some "TRUE") = true ∧
      useTLSOf (fun _ => some "1") = true :=
  ⟨(disableTLS_exact_true (fun _ => some "true")).1.mpr rfl,
    (disableTLS_exact_true (fun _ => some "yes")).2.1 "yes" rfl (by decide),
    (disableTLS_exact_true (fun _ => some "TRUE")).2.1 "TRUE" rfl (by decide),
    (disableTLS_exact_true (fun _ => some "1")).2.1 "1" rfl (by decide)⟩

/-- Claim C10: `readFromEnvironment` is idempotent — for every record and
fixed environment in which a first run succeeds, a second run on the
resulting record with the same environment succeeds and leaves every field
unchanged. -/
theorem readFromEnvironment_idempotent
    (atoi parseDuration : String → Option Int) (cfg cfg' : HTTProxyConfig)
    (env : Env)
    (h : readFromEnvironment atoi parseDuration cfg env = .ok cfg') :
    readFromEnvironment atoi parseDuration cfg' env = .ok cfg' := by
  rw [readFromEnvironment_def, resolve4_fix h]
  have hport : applyPort atoi env cfg' = .ok cfg' := by
    by_cases hd : cfg'.port = defaultPort
    · cases hv : env EnvPort with
      | none => exact applyPort_of_default_none _ _ _ hd hv
      | some s =>
          have hcd : cfg.port = defaultPort := by
            by_contra hne
            exact hne ((rfe_ok_port_set h hne) ▸ hd)
          obtain ⟨n, hn, hpn⟩ := rfe_ok_port_env h hcd hv
          rw [applyPort_of_default_parsed _ _ _ hd hv hn, ← hpn,
            setPort_self]
    · exact applyPort_of_set _ _ _ hd
  rw [hport]
  show applyTimeout parseDuration env cfg' = .ok cfg'
  by_cases hd : cfg'.timeout = proxyDefaultTimeout
  · cases hv : env EnvTimeout with
    | none => exact applyTimeout_of_default_none _ _ _ hd hv
    | some s =>
        have hcd : cfg.timeout = proxyDefaultTimeout := by
          by_contra hne
          exact hne ((rfe_ok_timeout_set h hne) ▸ hd)
        obtain ⟨d, hn, hdn⟩ := rfe_ok_timeout_env h hcd hv
        rw [applyTimeout_of_default_parsed _ _ _ hd hv hn, ← hdn,
          setTimeout_self]
  · exact applyTimeout_of_set _ _ _ hd

/-- Witness for C10: a first run resolving the port from the environment,
then a second run on its result with the same environment, which is a
no-op. -/
theorem readFromEnvironment_idempotent_witness :
    readFromEnvironment parse9090 noParse defaultConfig envPort9090 =
        .ok { defaultConfig with port := 9090 } ∧
      readFromEnvironment parse9090 noParse
          { defaultConfig with port := 9090 } envPort9090 =
        .ok { defaultConfig with port := 9090 } :=
  ⟨by rfl,
    readFromEnvironment_idempotent parse9090 noParse defaultConfig
      { defaultConfig with port := 9090 } envPort9090 (by rfl)⟩
